import Mathlib

/-!
Shallow embedding of `quantum.py` (repository Paper-Elektronika-Digital).

The program builds a 9-qubit circuit from a 6-element binary sensor vector:
X gates invert the sensor qubits that read abnormal (0), a single
multi-controlled X with controls 0..5 targets qubit 6, and qubits 6,7,8 are
measured into classical bits 2,1,0.  All gates are classical-reversible and
the initial state is the all-zero computational basis state, so the run is
deterministic and we give it an exact boolean semantics.  Filesystem and
plotting effects are modelled by explicit state passing over a `World`
(created directories, written files, number of open matplotlib figures),
with a record of injectable faults standing for the external calls that can
raise (directory creation, figure rendering, file saving, the simulator).
-/

namespace FsmQuantum

/-- Python values that can appear in the caller-supplied sensors list:
integers, booleans, and anything else (represented by a string tag).
Python compares booleans and integers as numbers (`True == 1`). -/
inductive PyVal where
  | vint : Int → PyVal
  | vbool : Bool → PyVal
  | vstr : String → PyVal
deriving DecidableEq, Repr

/-- Python `==` between a PyVal and an integer literal, as used by the
membership test `v not in (0, 1)` and the branch `if val == 0`. -/
def pyEqInt : PyVal → Int → Bool
  | .vint n, m => n == m
  | .vbool b, m => (if b then (1 : Int) else 0) == m
  | .vstr _, _ => false

/-- The guard on line 27 of quantum.py:
`len(sensors) != 6 or any(v not in (0, 1) for v in sensors)` raises;
so the input is valid iff the length is 6 and every element compares
equal to 0 or to 1. -/
def validSensors (sensors : List PyVal) : Bool :=
  sensors.length == 6 && sensors.all (fun v => pyEqInt v 0 || pyEqInt v 1)

/-- Gates actually issued by `simulate_fsm_quantum`: `qc.x`, `qc.mcx`,
`qc.measure` (one qubit into one classical bit). -/
inductive Gate where
  | x : Nat → Gate
  | mcx : List Nat → Nat → Gate
  | measure : Nat → Nat → Gate
deriving DecidableEq, Repr

/-- A circuit: number of qubits, number of classical bits, gate list in
program order (matching `QuantumCircuit(9, 3)` plus the appended gates). -/
structure Circuit where
  numQubits : Nat
  numClbits : Nat
  gates : List Gate
deriving DecidableEq, Repr

/-- The X gates of lines 36-38: an X on sensor qubit i whenever
`sensors[i] == 0`. -/
def xGates (sensors : List PyVal) : List Gate :=
  sensors.enum.filterMap fun p =>
    if pyEqInt p.2 0 then some (Gate.x p.1) else none

/-- The circuit built by lines 33-45 of quantum.py: 9 qubits, 3 classical
bits; the X gates on abnormal sensor qubits; one MCX with controls 0..5
and target 6; measurements of qubits 6,7,8 into classical bits 2,1,0. -/
def buildCircuit (sensors : List PyVal) : Circuit :=
  ⟨9, 3,
    xGates sensors
      ++ [Gate.mcx [0, 1, 2, 3, 4, 5] 6]
      ++ [Gate.measure 6 2, Gate.measure 7 1, Gate.measure 8 0]⟩

/-- Machine state during the run: qubit values (index = qubit number) and
classical bit values (index = classical bit number).  Basis states only:
every gate in this circuit is classical-reversible. -/
def applyGate : Gate → List Bool × List Bool → List Bool × List Bool
  | .x q, (qs, cs) => (qs.set q (!(qs.getD q false)), cs)
  | .mcx ctrls t, (qs, cs) =>
      if ctrls.all (fun c => qs.getD c false) then
        (qs.set t (!(qs.getD t false)), cs)
      else (qs, cs)
  | .measure q c, (qs, cs) => (qs, cs.set c (qs.getD q false))

/-- Run a circuit from the all-zero initial state (qubits start in state 0,
classical bits start at 0), returning the final qubit and classical-bit
vectors. -/
def runCircuit (qc : Circuit) : List Bool × List Bool :=
  qc.gates.foldl (fun st g => applyGate g st)
    (List.replicate qc.numQubits false, List.replicate qc.numClbits false)

def bitToChar (b : Bool) : Char := if b then '1' else '0'

/-- Qiskit renders a 3-classical-bit outcome as the string c2c1c0, highest
classical bit leftmost. -/
def resultString (cs : List Bool) : String :=
  String.mk [bitToChar (cs.getD 2 false), bitToChar (cs.getD 1 false),
             bitToChar (cs.getD 0 false)]

/-- The single bitstring this deterministic circuit produces. -/
def outBits (sensors : List PyVal) : String :=
  resultString (runCircuit (buildCircuit sensors)).2

/-- The counts mapping returned by `result.get_counts(tqc)`: the circuit is
deterministic, so every one of the `shots` trials yields the same
bitstring and the mapping is a singleton. -/
def simCounts (qc : Circuit) (shots : Nat) : List (String × Nat) :=
  [(resultString (runCircuit qc).2, shots)]

/-- Measurement counts of `simulate_fsm_quantum` as a function of the two
arguments that can influence them. -/
def fsm_counts (sensors : List PyVal) (shots : Nat) : List (String × Nat) :=
  simCounts (buildCircuit sensors) shots

/-- The key with the highest count (first such key on ties); `none` only
for an empty mapping.  This is the "dominant output bitstring" of the
spec. -/
def dominant (counts : List (String × Nat)) : Option String :=
  match counts with
  | [] => none
  | kv :: rest =>
      some ((rest.foldl (fun best p => if p.2 > best.2 then p else best) kv).1)

/-- Observable world state: directories created, files written, number of
matplotlib figures currently open. -/
structure World where
  dirs : List String
  files : List String
  openFigs : Nat
deriving DecidableEq, Repr

def emptyWorld : World := ⟨[], [], 0⟩

/-- Record an entry once (creation / overwrite both leave one entry). -/
def insertIfAbsent (x : String) (xs : List String) : List String :=
  if x ∈ xs then xs else xs ++ [x]

/-- Errors the pipeline can raise: the ValueError of the input guard, an
IOError from directory creation / rendering / saving, an error propagated
from the simulation backend. -/
inductive PyError where
  | valueError : PyError
  | ioError : PyError
  | simError : PyError
deriving DecidableEq, Repr

/-- Which external calls fail during one invocation of
`simulate_fsm_quantum` (all false = the normal successful run):
directory creation, circuit rendering, circuit-image saving, the
simulation backend, histogram rendering, histogram-image saving. -/
structure Faults where
  mkdirFails : Bool
  drawFails : Bool
  saveCircFails : Bool
  simFails : Bool
  plotHistFails : Bool
  saveHistFails : Bool
deriving DecidableEq, Repr

def noFaults : Faults := ⟨false, false, false, false, false, false⟩

def saveCircFaultOnly : Faults := ⟨false, false, true, false, false, false⟩

def simFaultOnly : Faults := ⟨false, false, false, true, false, false⟩

def saveHistFaultOnly : Faults := ⟨false, false, false, false, false, true⟩

/-- `ensure_outdir`: `os.makedirs(outdir, exist_ok=True)` then return the
path.  With `exist_ok=True` an existing directory is not an error, so on
the world this is an idempotent insertion. -/
def ensure_outdir (outdir : String) (w : World) : String × World :=
  (outdir, ⟨insertIfAbsent outdir w.dirs, w.files, w.openFigs⟩)

def circuitPath (outdir tag : String) : String :=
  outdir ++ "/circuit_" ++ tag ++ ".png"

def histPath (outdir tag : String) : String :=
  outdir ++ "/hist_" ++ tag ++ ".png"

/-- Embedding of `simulate_fsm_quantum(sensors, shots, tag, outdir, show)`,
lines 16-72 of quantum.py, in source order: validate; ensure the output
directory; build the circuit; render and save the circuit diagram, then
close its figure; transpile and run the simulation; render and save the
histogram, optionally `plt.show()`, then close its figure; return
`(counts, circuit_path, hist_path)`.  A raised exception propagates
immediately, leaving the world as it was at that point. -/
def simulate_fsm_quantum (sensors : List PyVal) (shots : Nat)
    (tag outdir : String) (showFlag : Bool) (f : Faults) (w : World) :
    Except PyError (List (String × Nat) × String × String) × World :=
  if !validSensors sensors then (Except.error .valueError, w)
  else if f.mkdirFails then (Except.error .ioError, w)
  else
    let od := (ensure_outdir outdir w).1
    let w1 := (ensure_outdir outdir w).2
    let qc := buildCircuit sensors
    let cpath := circuitPath od tag
    if f.drawFails then (Except.error .ioError, w1)
    else
      let w2 : World := ⟨w1.dirs, w1.files, w1.openFigs + 1⟩
      if f.saveCircFails then (Except.error .ioError, w2)
      else
        let w3 : World := ⟨w2.dirs, insertIfAbsent cpath w2.files, w2.openFigs⟩
        let w4 : World := ⟨w3.dirs, w3.files, w3.openFigs - 1⟩
        if f.simFails then (Except.error .simError, w4)
        else
          let counts := simCounts qc shots
          let hpath := histPath od tag
          if f.plotHistFails then (Except.error .ioError, w4)
          else
            let w5 : World := ⟨w4.dirs, w4.files, w4.openFigs + 1⟩
            if f.saveHistFails then (Except.error .ioError, w5)
            else
              let w6 : World := ⟨w5.dirs, insertIfAbsent hpath w5.files, w5.openFigs⟩
              let w7 : World := ⟨w6.dirs, w6.files, w6.openFigs - 1⟩
              (Except.ok (counts, cpath, hpath), w7)

/-- Faults for `save_summary_hist`: directory creation, histogram
rendering, file saving. -/
structure FaultsS where
  mkdirFails : Bool
  histFails : Bool
  saveFails : Bool
deriving DecidableEq, Repr

def noFaultsS : FaultsS := ⟨false, false, false⟩

def saveFaultOnlyS : FaultsS := ⟨false, false, true⟩

/-- Embedding of `save_summary_hist(counts_dict, outdir, filename)`, lines
75-90 of quantum.py: ensure the output directory; `fig = plt.figure()`
opens a figure; `fig = plot_histogram(counts_dict)` opens a second figure
and drops the reference to the first; save; `plt.close(fig)` closes the
histogram figure only; return the path. -/
def save_summary_hist (counts_dict : List (String × List (String × Nat)))
    (outdir filename : String) (f : FaultsS) (w : World) :
    Except PyError String × World :=
  if f.mkdirFails then (Except.error .ioError, w)
  else
    let w1 := (ensure_outdir outdir w).2
    let path := outdir ++ "/" ++ filename
    let w2 : World := ⟨w1.dirs, w1.files, w1.openFigs + 1⟩
    if f.histFails then (Except.error .ioError, w2)
    else
      let w3 : World := ⟨w2.dirs, w2.files, w2.openFigs + 1⟩
      if f.saveFails then (Except.error .ioError, w3)
      else
        let w4 : World := ⟨w3.dirs, insertIfAbsent path w3.files, w3.openFigs⟩
        let w5 : World := ⟨w4.dirs, w4.files, w4.openFigs - 1⟩
        (Except.ok path, w5)

theorem fsm_counts_eq (sensors : List PyVal) (shots : Nat) :
    fsm_counts sensors shots = [(outBits sensors, shots)] := rfl

theorem dominant_fsm (sensors : List PyVal) (shots : Nat) :
    dominant (fsm_counts sensors shots) = some (outBits sensors) := rfl

theorem resultString_length (cs : List Bool) : (resultString cs).length = 3 := rfl

/-- C1: over valid sensor vectors (length 6, elements in 0/1) the dominant
measured bitstring is "100" exactly when all six sensors read 0 (all
abnormal), and "000" for every other configuration. -/
theorem encoding_rule_dominant (sensors : List Int) (hlen : sensors.length = 6)
    (hb : ∀ v ∈ sensors, v = 0 ∨ v = 1) (shots : Nat) :
    dominant (fsm_counts (sensors.map PyVal.vint) shots) =
      some (if sensors.all (fun v => v == 0) then "100" else "000") := by
  rcases sensors with _ | ⟨a, s⟩; · simp at hlen
  rcases s with _ | ⟨b, s⟩; · simp at hlen
  rcases s with _ | ⟨c, s⟩; · simp at hlen
  rcases s with _ | ⟨d, s⟩; · simp at hlen
  rcases s with _ | ⟨e, s⟩; · simp at hlen
  rcases s with _ | ⟨f, s⟩; · simp at hlen
  rcases s with _ | ⟨g, s⟩
  · have h1 := hb a (by simp)
    have h2 := hb b (by simp)
    have h3 := hb c (by simp)
    have h4 := hb d (by simp)
    have h5 := hb e (by simp)
    have h6 := hb f (by simp)
    rw [dominant_fsm]
    rcases h1 with rfl | rfl <;> rcases h2 with rfl | rfl <;>
      rcases h3 with rfl | rfl <;> rcases h4 with rfl | rfl <;>
      rcases h5 with rfl | rfl <;> rcases h6 with rfl | rfl <;> decide
  · simp at hlen

theorem encoding_rule_dominant_witness :
    dominant (fsm_counts (List.map PyVal.vint [0, 0, 0, 0, 0, 0]) 1024) = some "100" := by
  have h := encoding_rule_dominant [0, 0, 0, 0, 0, 0] (by decide) (by decide) 1024
  simpa using h

/-- C2: the ValueError of the input guard fires exactly on invalid input,
and fires before any effect: the world (directories, files, figures) is
returned unchanged; on valid input the error raised, if any, is never the
ValueError. -/
theorem invalid_input_guard (sensors : List PyVal) (shots : Nat)
    (tag outdir : String) (showFlag : Bool) (f : Faults) (w : World) :
    (validSensors sensors = false →
      simulate_fsm_quantum sensors shots tag outdir showFlag f w =
        (Except.error PyError.valueError, w)) ∧
    (validSensors sensors = true →
      (simulate_fsm_quantum sensors shots tag outdir showFlag f w).1 ≠
        Except.error PyError.valueError) := by
  constructor
  · intro h
    simp [simulate_fsm_quantum, h]
  · intro h
    simp only [simulate_fsm_quantum, h, Bool.not_true, Bool.false_eq_true, if_false]
    split_ifs <;> simp

theorem invalid_input_guard_witness :
    simulate_fsm_quantum [PyVal.vint 2] 1024 "case" "outputs" false noFaults emptyWorld =
      (Except.error PyError.valueError, emptyWorld) :=
  (invalid_input_guard [PyVal.vint 2] 1024 "case" "outputs" false noFaults emptyWorld).1 rfl

theorem ok_counts {sensors : List PyVal} {shots : Nat} {tag outdir : String}
    {showFlag : Bool} {f : Faults} {w : World}
    {counts : List (String × Nat)} {p1 p2 : String} {w' : World}
    (h : simulate_fsm_quantum sensors shots tag outdir showFlag f w =
      (Except.ok (counts, p1, p2), w')) :
    counts = fsm_counts sensors shots := by
  simp only [simulate_fsm_quantum] at h
  split_ifs at h <;> simp_all [fsm_counts]

/-- C5: every successful invocation returns a counts mapping whose values
sum to the shot count and whose keys all have length exactly 3. -/
theorem counts_invariants {sensors : List PyVal} {shots : Nat} {tag outdir : String}
    {showFlag : Bool} {f : Faults} {w : World}
    {counts : List (String × Nat)} {p1 p2 : String} {w' : World}
    (h : simulate_fsm_quantum sensors shots tag outdir showFlag f w =
      (Except.ok (counts, p1, p2), w')) :
    counts.foldl (fun acc kv => acc + kv.2) 0 = shots ∧
      ∀ kv ∈ counts, kv.1.length = 3 := by
  rw [ok_counts h, fsm_counts_eq]
  refine ⟨by simp, ?_⟩
  intro kv hkv
  simp only [List.mem_singleton] at hkv
  subst hkv
  exact resultString_length _

theorem counts_invariants_witness :
    List.foldl (fun acc kv => acc + kv.2) 0 ([("100", 1024)] : List (String × Nat)) = 1024 ∧
      ∀ kv ∈ ([("100", 1024)] : List (String × Nat)), kv.1.length = 3 :=
  counts_invariants
    (show simulate_fsm_quantum (List.replicate 6 (PyVal.vint 0)) 1024 "case" "outputs"
        false noFaults emptyWorld =
      (Except.ok ([("100", 1024)], "outputs/circuit_case.png", "outputs/hist_case.png"),
        ⟨["outputs"], ["outputs/circuit_case.png", "outputs/hist_case.png"], 0⟩) from rfl)

/-- C9: the returned counts depend only on sensors and shots; tag, outdir
and show influence paths and display only. -/
theorem counts_noninterference {sensors : List PyVal} {shots : Nat}
    {tag1 outdir1 : String} {sf1 : Bool} {f1 : Faults} {w1 : World}
    {tag2 outdir2 : String} {sf2 : Bool} {f2 : Faults} {w2 : World}
    {c1 c2 : List (String × Nat)} {p1 q1 p2 q2 : String} {w1' w2' : World}
    (h1 : simulate_fsm_quantum sensors shots tag1 outdir1 sf1 f1 w1 =
      (Except.ok (c1, p1, q1), w1'))
    (h2 : simulate_fsm_quantum sensors shots tag2 outdir2 sf2 f2 w2 =
      (Except.ok (c2, p2, q2), w2')) :
    c1 = c2 := by
  rw [ok_counts h1, ok_counts h2]

theorem counts_noninterference_witness :
    ([("100", 7)] : List (String × Nat)) = [("100", 7)] :=
  counts_noninterference
    (show simulate_fsm_quantum (List.replicate 6 (PyVal.vint 0)) 7 "a" "o1"
        false noFaults emptyWorld =
      (Except.ok ([("100", 7)], "o1/circuit_a.png", "o1/hist_a.png"),
        ⟨["o1"], ["o1/circuit_a.png", "o1/hist_a.png"], 0⟩) from rfl)
    (show simulate_fsm_quantum (List.replicate 6 (PyVal.vint 0)) 7 "b" "o2"
        true noFaults emptyWorld =
      (Except.ok ([("100", 7)], "o2/circuit_b.png", "o2/hist_b.png"),
        ⟨["o2"], ["o2/circuit_b.png", "o2/hist_b.png"], 0⟩) from rfl)

theorem mem_xGates {sensors : List PyVal} {g : Gate} (h : g ∈ xGates sensors) :
    ∃ q, g = Gate.x q := by
  obtain ⟨p, _, he⟩ := List.mem_filterMap.mp h
  split at he
  · exact ⟨p.1, (Option.some.inj he).symm⟩
  · exact absurd he (by simp)

/-- C3 counterexample: with the simulation backend failing, the invocation
aborts with an error, yet the circuit diagram file written beforehand is
left on disk — the pipeline is not atomic. -/
theorem pipeline_not_atomic_counterexample :
    (simulate_fsm_quantum (List.replicate 6 (PyVal.vint 0)) 1024 "case" "outputs" false
        simFaultOnly emptyWorld).1 = Except.error PyError.simError ∧
    "outputs/circuit_case.png" ∈
      (simulate_fsm_quantum (List.replicate 6 (PyVal.vint 0)) 1024 "case" "outputs" false
        simFaultOnly emptyWorld).2.files :=
  ⟨rfl, by decide⟩

/-- C3 amended: a failing invocation started against an empty output
directory leaves behind either no file at all (failure up to and including
the circuit-image save) or exactly the circuit diagram file (failure in
the simulation, histogram rendering, or histogram save); the histogram
file is never left behind by an aborted invocation. -/
theorem pipeline_failure_files (sensors : List PyVal) (shots : Nat)
    (tag outdir : String) (showFlag : Bool) (f : Faults) (e : PyError)
    (h : (simulate_fsm_quantum sensors shots tag outdir showFlag f emptyWorld).1 =
      Except.error e) :
    (simulate_fsm_quantum sensors shots tag outdir showFlag f emptyWorld).2.files = [] ∨
    (simulate_fsm_quantum sensors shots tag outdir showFlag f emptyWorld).2.files =
      [circuitPath outdir tag] := by
  simp only [simulate_fsm_quantum] at h ⊢
  split_ifs at h ⊢ <;> simp_all [insertIfAbsent, emptyWorld, ensure_outdir]

theorem pipeline_failure_files_witness :
    (simulate_fsm_quantum (List.replicate 6 (PyVal.vint 0)) 1024 "case" "outputs" false
        simFaultOnly emptyWorld).2.files = [] ∨
    (simulate_fsm_quantum (List.replicate 6 (PyVal.vint 0)) 1024 "case" "outputs" false
        simFaultOnly emptyWorld).2.files = [circuitPath "outputs" "case"] :=
  pipeline_failure_files (List.replicate 6 (PyVal.vint 0)) 1024 "case" "outputs" false
    simFaultOnly PyError.simError rfl

/-- C4 counterexample: a fully successful call of `save_summary_hist`
leaves one figure open (the one from `plt.figure()` whose binding is
immediately overwritten by the `plot_histogram` result), so the exporters
do not release every figure on every exit path. -/
theorem exporter_figure_leak_counterexample :
    (save_summary_hist [("Emergency", [("100", 1024)])] "outputs" "summary_hist.png"
        noFaultsS emptyWorld).1 = Except.ok "outputs/summary_hist.png" ∧
    (save_summary_hist [("Emergency", [("100", 1024)])] "outputs" "summary_hist.png"
        noFaultsS emptyWorld).2.openFigs = 1 :=
  ⟨rfl, rfl⟩

/-- C4 amended: `simulate_fsm_quantum` closes its figures on the fully
successful path (the open-figure count is unchanged), but a failing
`savefig` — of the circuit image or of the histogram image — leaves that
figure open; and `save_summary_hist` leaks one figure even on success and
two when its save fails. -/
theorem exporter_figure_release (sensors : List PyVal) (shots : Nat)
    (tag outdir : String) (showFlag : Bool) (w : World)
    (cd : List (String × List (String × Nat))) (od fn : String) (w' : World)
    (hv : validSensors sensors = true) :
    (simulate_fsm_quantum sensors shots tag outdir showFlag noFaults w).2.openFigs =
      w.openFigs ∧
    (simulate_fsm_quantum sensors shots tag outdir showFlag saveCircFaultOnly
        w).2.openFigs = w.openFigs + 1 ∧
    (simulate_fsm_quantum sensors shots tag outdir showFlag saveHistFaultOnly
        w).2.openFigs = w.openFigs + 1 ∧
    (save_summary_hist cd od fn noFaultsS w').2.openFigs = w'.openFigs + 1 ∧
    (save_summary_hist cd od fn saveFaultOnlyS w').2.openFigs = w'.openFigs + 2 := by
  simp [simulate_fsm_quantum, save_summary_hist, hv, noFaults, saveCircFaultOnly,
    saveHistFaultOnly, noFaultsS, saveFaultOnlyS, ensure_outdir]

theorem exporter_figure_release_witness :
    (simulate_fsm_quantum (List.replicate 6 (PyVal.vint 1)) 1024 "case" "outputs" false
        noFaults emptyWorld).2.openFigs = emptyWorld.openFigs ∧
    (simulate_fsm_quantum (List.replicate 6 (PyVal.vint 1)) 1024 "case" "outputs" false
        saveCircFaultOnly emptyWorld).2.openFigs = emptyWorld.openFigs + 1 ∧
    (simulate_fsm_quantum (List.replicate 6 (PyVal.vint 1)) 1024 "case" "outputs" false
        saveHistFaultOnly emptyWorld).2.openFigs = emptyWorld.openFigs + 1 ∧
    (save_summary_hist [] "outputs" "summary_hist.png" noFaultsS
        emptyWorld).2.openFigs = emptyWorld.openFigs + 1 ∧
    (save_summary_hist [] "outputs" "summary_hist.png" saveFaultOnlyS
        emptyWorld).2.openFigs = emptyWorld.openFigs + 2 :=
  exporter_figure_release (List.replicate 6 (PyVal.vint 1)) 1024 "case" "outputs" false
    emptyWorld [] "outputs" "summary_hist.png" emptyWorld rfl

/-- The qubit-to-classical-bit assignments of the measure gates, in
program order. -/
def measureTargets (qc : Circuit) : List (Nat × Nat) :=
  qc.gates.filterMap fun g =>
    match g with
    | Gate.measure q c => some (q, c)
    | _ => none

/-- C6: the measurement step maps qubit 6 to classical bit 2, qubit 7 to
bit 1, qubit 8 to bit 0, and the rendered label puts classical bit 2
leftmost: the state with only bit 2 set reads "100", not "001". -/
theorem measurement_mapping (sensors : List PyVal) :
    measureTargets (buildCircuit sensors) = [(6, 2), (7, 1), (8, 0)] ∧
    resultString [false, false, true] = "100" ∧
    resultString [false, false, false] = "000" ∧
    resultString [false, false, true] ≠ "001" := by
  refine ⟨?_, rfl, rfl, by decide⟩
  have hx : (xGates sensors).filterMap (fun g =>
      match g with
      | Gate.measure q c => some (q, c)
      | _ => none) = [] := by
    rw [List.filterMap_eq_nil_iff]
    intro g hg
    obtain ⟨q, rfl⟩ := mem_xGates hg
    rfl
  unfold measureTargets buildCircuit
  simp only [List.filterMap_append, hx]
  rfl

/-- Predicate describing the only gates this program ever issues: X
gates, the single MCX with controls 0..5 and target 6, measurements. -/
def isAllowedGate : Gate → Bool
  | Gate.x _ => true
  | Gate.mcx ctrls t => ctrls == [0, 1, 2, 3, 4, 5] && t == 6
  | Gate.measure _ _ => true

def isMcx : Gate → Bool
  | Gate.mcx _ _ => true
  | _ => false

/-- C8: for every valid sensor vector the circuit consists solely of X
gates, exactly one MCX gate (controls 0..5, target 6), and measurements —
no superposition-creating gate — and consequently the returned counts
mapping is the singleton assigning all shots to a single bitstring. -/
theorem deterministic_singleton (sensors : List PyVal) (shots : Nat)
    (hv : validSensors sensors = true) :
    (∃ s, fsm_counts sensors shots = [(s, shots)]) ∧
    (buildCircuit sensors).gates.all isAllowedGate = true ∧
    (buildCircuit sensors).gates.countP isMcx = 1 := by
  refine ⟨⟨outBits sensors, rfl⟩, ?_, ?_⟩
  · unfold buildCircuit
    simp only [List.all_append, Bool.and_eq_true]
    refine ⟨⟨?_, by decide⟩, by decide⟩
    rw [List.all_eq_true]
    intro g hg
    obtain ⟨q, rfl⟩ := mem_xGates hg
    rfl
  · unfold buildCircuit
    simp only [List.countP_append]
    have hx : (xGates sensors).countP isMcx = 0 := by
      rw [List.countP_eq_zero]
      intro g hg
      obtain ⟨q, rfl⟩ := mem_xGates hg
      simp [isMcx]
    simp [hx]
    rfl

theorem deterministic_singleton_witness :
    (∃ s, fsm_counts (List.replicate 6 (PyVal.vint 1)) 1024 = [(s, 1024)]) ∧
    (buildCircuit (List.replicate 6 (PyVal.vint 1))).gates.all isAllowedGate = true ∧
    (buildCircuit (List.replicate 6 (PyVal.vint 1))).gates.countP isMcx = 1 :=
  deterministic_singleton (List.replicate 6 (PyVal.vint 1)) 1024 rfl

theorem insertIfAbsent_idem (x : String) (xs : List String) :
    insertIfAbsent x (insertIfAbsent x xs) = insertIfAbsent x xs := by
  by_cases h : x ∈ xs
  · simp [insertIfAbsent, h]
  · simp [insertIfAbsent, h]

theorem circuitPath_ne_histPath (outdir tag : String) :
    circuitPath outdir tag ≠ histPath outdir tag := by
  intro h
  have hl := congrArg String.length h
  have h9 : ("/circuit_" : String).length = 9 := rfl
  have h6 : ("/hist_" : String).length = 6 := rfl
  simp only [circuitPath, histPath, String.length_append, h9, h6] at hl
  omega

/-- C7: `ensure_outdir` returns its argument and is idempotent on the
world; a successful invocation started against an empty world writes
exactly the circuit and histogram files into the output directory and
returns their paths as the second and third components of the triple;
`save_summary_hist` writes its one file and returns its path. -/
theorem output_paths (sensors : List PyVal) (shots : Nat) (tag outdir : String)
    (showFlag : Bool) (w : World)
    (cd : List (String × List (String × Nat))) (od2 fn : String) (w2 : World)
    (hv : validSensors sensors = true) :
    (ensure_outdir outdir (ensure_outdir outdir w).2).2 = (ensure_outdir outdir w).2 ∧
    (ensure_outdir outdir w).1 = outdir ∧
    (simulate_fsm_quantum sensors shots tag outdir showFlag noFaults emptyWorld).1 =
      Except.ok (fsm_counts sensors shots, circuitPath outdir tag, histPath outdir tag) ∧
    (simulate_fsm_quantum sensors shots tag outdir showFlag noFaults emptyWorld).2 =
      ⟨[outdir], [circuitPath outdir tag, histPath outdir tag], 0⟩ ∧
    (save_summary_hist cd od2 fn noFaultsS w2).1 = Except.ok (od2 ++ "/" ++ fn) ∧
    (save_summary_hist cd od2 fn noFaultsS w2).2.files =
      insertIfAbsent (od2 ++ "/" ++ fn) w2.files := by
  have hne : histPath outdir tag ∉ [circuitPath outdir tag] := by
    simp only [List.mem_singleton]
    exact fun h => circuitPath_ne_histPath outdir tag h.symm
  refine ⟨?_, rfl, ?_, ?_, ?_, ?_⟩
  · simp [ensure_outdir, insertIfAbsent_idem]
  · simp [simulate_fsm_quantum, hv, noFaults, fsm_counts, ensure_outdir]
  · have hne2 : ¬ histPath outdir tag = circuitPath outdir tag :=
      fun h => circuitPath_ne_histPath outdir tag h.symm
    simp [simulate_fsm_quantum, hv, noFaults, ensure_outdir, emptyWorld,
      insertIfAbsent, hne2]
  · simp [save_summary_hist, noFaultsS]
  · simp [save_summary_hist, noFaultsS, ensure_outdir]

theorem output_paths_witness :
    (ensure_outdir "outputs" (ensure_outdir "outputs" emptyWorld).2).2 =
      (ensure_outdir "outputs" emptyWorld).2 ∧
    (ensure_outdir "outputs" emptyWorld).1 = "outputs" ∧
    (simulate_fsm_quantum (List.replicate 6 (PyVal.vint 1)) 1024 "case" "outputs" false
        noFaults emptyWorld).1 =
      Except.ok (fsm_counts (List.replicate 6 (PyVal.vint 1)) 1024,
        circuitPath "outputs" "case", histPath "outputs" "case") ∧
    (simulate_fsm_quantum (List.replicate 6 (PyVal.vint 1)) 1024 "case" "outputs" false
        noFaults emptyWorld).2 =
      ⟨["outputs"], [circuitPath "outputs" "case", histPath "outputs" "case"], 0⟩ ∧
    (save_summary_hist [] "outputs" "summary_hist.png" noFaultsS emptyWorld).1 =
      Except.ok ("outputs" ++ "/" ++ "summary_hist.png") ∧
    (save_summary_hist [] "outputs" "summary_hist.png" noFaultsS emptyWorld).2.files =
      insertIfAbsent ("outputs" ++ "/" ++ "summary_hist.png") emptyWorld.files :=
  output_paths (List.replicate 6 (PyVal.vint 1)) 1024 "case" "outputs" false
    emptyWorld [] "outputs" "summary_hist.png" emptyWorld rfl

/-- C10: a list of six Python booleans passes the input guard (because
`True == 1` and `False == 0` under the membership test), and the circuit
treats `False` exactly as the integer 0 (abnormal) and `True` exactly as
the integer 1 (normal). -/
theorem boolean_sensors_accepted (bs : List Bool) (hlen : bs.length = 6)
    (shots : Nat) :
    validSensors (bs.map PyVal.vbool) = true ∧
    fsm_counts (bs.map PyVal.vbool) shots =
      fsm_counts (bs.map fun b => PyVal.vint (if b then 1 else 0)) shots := by
  rcases bs with _ | ⟨a, s⟩; · simp at hlen
  rcases s with _ | ⟨b, s⟩; · simp at hlen
  rcases s with _ | ⟨c, s⟩; · simp at hlen
  rcases s with _ | ⟨d, s⟩; · simp at hlen
  rcases s with _ | ⟨e, s⟩; · simp at hlen
  rcases s with _ | ⟨f, s⟩; · simp at hlen
  rcases s with _ | ⟨g, s⟩
  · constructor
    · revert a b c d e f
      decide
    · rw [fsm_counts_eq, fsm_counts_eq]
      have hob : outBits ([a, b, c, d, e, f].map PyVal.vbool) =
          outBits ([a, b, c, d, e, f].map fun x => PyVal.vint (if x then 1 else 0)) := by
        revert a b c d e f
        decide
      rw [hob]
  · simp at hlen

theorem boolean_sensors_accepted_witness :
    validSensors ([false, false, false, false, false, false].map PyVal.vbool) = true ∧
    fsm_counts ([false, false, false, false, false, false].map PyVal.vbool) 5 =
      fsm_counts ([false, false, false, false, false, false].map
        fun b => PyVal.vint (if b then 1 else 0)) 5 :=
  boolean_sensors_accepted [false, false, false, false, false, false] rfl 5

end FsmQuantum
